import Mathlib

/-!
Verification of the Collabers frontend (React/TypeScript) against its design
specification. The repository snapshot holds the UI layer only: the page
components and the API client. Pure fragments of the page handlers are
embedded as Lean functions; where a claim is decided by the backend service
that is absent from the snapshot (the ApplicationLedger transition service),
the missing operation is modelled from the specification text and marked as
such in its doc comment.
-/

namespace Collabers

/-- Application status values, from the statusColors records of
ProjectApplicationsPage and MyApplicationsPage and the Application interface
in types.ts. -/
inductive AppStatus
  | pending
  | under_review
  | accepted
  | rejected
  | withdrawn
deriving DecidableEq, Repr

/-- Actors of the specification transition table (section 4.1). -/
inductive Actor
  | creator
  | applicant
deriving DecidableEq, Repr

/-- Error taxonomy of specification section 7. -/
inductive ErrKind
  | ValidationError
  | StateConflict
  | AuthorizationError
  | NotFound
deriving DecidableEq, Repr

/-- Transition table of specification section 4.1, written from the spec text
for comparison with the code: for a source and target status, the actor the
table permits, or none when the pair is not a row of the table. -/
def tableActor : AppStatus → AppStatus → Option Actor
  | AppStatus.pending, AppStatus.under_review => some Actor.creator
  | AppStatus.pending, AppStatus.accepted => some Actor.creator
  | AppStatus.pending, AppStatus.rejected => some Actor.creator
  | AppStatus.pending, AppStatus.withdrawn => some Actor.applicant
  | AppStatus.under_review, AppStatus.accepted => some Actor.creator
  | AppStatus.under_review, AppStatus.rejected => some Actor.creator
  | AppStatus.under_review, AppStatus.withdrawn => some Actor.applicant
  | _, _ => none

/-- Filter defining pendingApps in ProjectApplicationsPage:
applications with status pending or under_review. -/
def inPendingSection (s : AppStatus) : Bool :=
  s == AppStatus.pending || s == AppStatus.under_review

/-- Filter defining decidedApps in ProjectApplicationsPage:
applications with status accepted, rejected or withdrawn. -/
def inDecidedSection (s : AppStatus) : Bool :=
  s == AppStatus.accepted || s == AppStatus.rejected || s == AppStatus.withdrawn

/-- Status-changing buttons ProjectApplicationsPage renders for an application
of status s, each wired to handleUpdateStatus with the given target status:
in the pendingApps section the Accept and Reject buttons always render and the
Mark Reviewing button renders only when the status is pending; the decidedApps
section renders no buttons. -/
def statusButtons (s : AppStatus) : List AppStatus :=
  if inPendingSection s then
    [AppStatus.accepted, AppStatus.rejected] ++
      (if s == AppStatus.pending then [AppStatus.under_review] else [])
  else []

/-- MyApplicationsPage renders the Withdraw button, wired to handleWithdraw,
only when the application status is pending. -/
def withdrawOffered (s : AppStatus) : Bool :=
  s == AppStatus.pending

/-- Terminal application statuses per the specification glossary. -/
def isTerminal (s : AppStatus) : Bool :=
  s == AppStatus.accepted || s == AppStatus.rejected || s == AppStatus.withdrawn

/-- Application record, from the Application interface in types.ts, restricted
to the fields the embedded handlers read or write (display-only fields such as
timestamps and the nested applicant and project objects are omitted). -/
structure Application where
  id : Nat
  project_id : Nat
  applicant_id : Nat
  cover_letter : String
  proposed_role : String
  status : AppStatus
deriving DecidableEq, Repr

/-- MyApplicationsPage.handleWithdraw: after the confirm dialog it issues
updateApplication with status withdrawn for the given id and, on success, maps
the local list, setting that application to withdrawn. Returns the new local
list and the list of (id, status) update requests issued. -/
def handleWithdraw (confirmOk : Bool) (apps : List Application) (appId : Nat) :
    List Application × List (Nat × AppStatus) :=
  if !confirmOk then (apps, [])
  else
    (apps.map (fun a => if a.id == appId then { a with status := AppStatus.withdrawn } else a),
     [(appId, AppStatus.withdrawn)])

/-- Project status values, from the statusColors record of ProjectDetailPage
(draft, open, in_progress, filled, completed, cancelled); the word open is a
reserved word in Lean, hence the trailing underscore. -/
inductive ProjStatus
  | draft
  | open_
  | in_progress
  | filled
  | completed
  | cancelled
deriving DecidableEq, Repr

/-- Project record, from the Project interface in types.ts, restricted to the
fields the embedded handlers read. -/
structure Project where
  id : Nat
  creator_id : Nat
  roles_needed : List String
  status : ProjStatus
deriving DecidableEq, Repr

/-- User record (useAuth), restricted to the id field the handlers read. -/
structure User where
  id : Nat
deriving DecidableEq, Repr

/-- ProjectDetailPage: isCreator is user?.id === project.creator_id. -/
def isCreator (user : Option User) (p : Project) : Bool :=
  match user with
  | some u => u.id == p.creator_id
  | none => false

/-- ProjectDetailPage: canApply is user && !isCreator && project.status is
open; the Apply button renders only when canApply holds. -/
def canApply (user : Option User) (p : Project) : Bool :=
  user.isSome && !(isCreator user p) && p.status == ProjStatus.open_

/-- Payload of applicationsApi.createApplication as built by handleApply. -/
structure CreateApplicationReq where
  project_id : Nat
  proposed_role : String
  cover_letter : String
deriving DecidableEq, Repr

/-- Local state of ProjectDetailPage read by handleApply. -/
structure ApplyFormState where
  project : Option Project
  selectedRole : String
  coverMessage : String
  applyError : String
deriving DecidableEq, Repr

/-- ProjectDetailPage.handleApply: returns early when no project is loaded;
when the cover message is shorter than 50 characters it sets the validation
error and issues no request; otherwise it clears the error and issues one
createApplication request with the selected role and the cover message.
Returns the new form state and the list of requests issued. -/
def handleApply (st : ApplyFormState) : ApplyFormState × List CreateApplicationReq :=
  match st.project with
  | none => (st, [])
  | some p =>
    if st.coverMessage.length < 50 then
      ({ st with applyError := "Cover message must be at least 50 characters" }, [])
    else
      ({ st with applyError := "" },
       [{ project_id := p.id, proposed_role := st.selectedRole,
          cover_letter := st.coverMessage }])

/-- ProjectDetailPage fetchProject effect on selectedRole: when the loaded
project has a non-empty roles_needed list the first role becomes selected;
otherwise selectedRole keeps its initial value, the empty string. -/
def fetchRoleInit (roles : List String) : String :=
  match roles with
  | [] => ""
  | r :: _ => r

/-- Role select element of the apply modal: its options are exactly the
project roles_needed, so a change event can only carry one of those values;
any other value leaves the selection unchanged. -/
def selectRole (roles : List String) (current choice : String) : String :=
  if choice ∈ roles then choice else current

/-- SelectedRole reachable in ProjectDetailPage after the project has loaded
and an arbitrary sequence of change events on the role select element. -/
def roleAfter (roles : List String) (choices : List String) : String :=
  choices.foldl (selectRole roles) (fetchRoleInit roles)

/-- Collaboration status values, from the statusColors record of
MyCollaborationsPage and the Collaboration interface in types.ts. -/
inductive CollabStatus
  | active
  | completed
  | left
  | removed
deriving DecidableEq, Repr

/-- Collaboration record, from the Collaboration interface in types.ts,
restricted to the fields the embedded handlers read or write. -/
structure Collaboration where
  id : Nat
  project_id : Nat
  user_id : Nat
  role : String
  status : CollabStatus
deriving DecidableEq, Repr

/-- MyCollaborationsPage renders the Leave button, wired to handleLeave, for a
collaboration only inside the activeCollabs section (status active) and only
when its role is not creator. -/
def leaveOffered (c : Collaboration) : Bool :=
  c.status == CollabStatus.active && c.role != ("creator")

/-- Collaborations for which MyCollaborationsPage renders a Leave button;
handleLeave, and hence leaveCollaboration, is invoked only through one of
these buttons. -/
def leaveButtons (collabs : List Collaboration) : List Collaboration :=
  collabs.filter leaveOffered

/-- Message record, from the Message interface in types.ts, restricted to the
fields the embedded handlers read (display-only fields such as the timestamp,
read_by and the nested sender objects are omitted). -/
structure Message where
  id : Nat
  conversation_id : Nat
  sender_id : Nat
  content : String
deriving DecidableEq, Repr

/-- Whitespace characters removed by the JavaScript string trim method, as it
applies to the content of a chat input (space, tab, line feed, carriage
return). -/
def isWs (c : Char) : Bool :=
  c == ' ' || c == '\t' || c == '\n' || c == '\r'

/-- Leading and trailing whitespace removal on a character list. -/
def trimChars (cs : List Char) : List Char :=
  (((cs.dropWhile isWs).reverse.dropWhile isWs).reverse)

/-- Embedding of the JavaScript trim method on strings. -/
def jsTrim (s : String) : String :=
  String.mk (trimChars s.data)

/-- Strings that are empty or whitespace-only. -/
def isBlank (s : String) : Bool :=
  s.data.all isWs

/-- Local state of ConversationPage read and written by handleSend and the
polling effect. -/
structure ConversationState where
  messages : List Message
  errorMsg : String
  newMessage : String
  sending : Bool
deriving DecidableEq, Repr

/-- ConversationPage.handleSend: returns early when the trimmed input is empty
(an empty string is falsy) or a send is already in flight; otherwise it issues
sendMessage with the trimmed content, appends the reply message returned by
the API and clears the input. Returns the new state and the list of content
payloads sent. -/
def handleSend (st : ConversationState) (reply : Message) :
    ConversationState × List String :=
  if jsTrim st.newMessage == "" || st.sending then (st, [])
  else
    ({ st with messages := st.messages ++ [reply], newMessage := "" },
     [jsTrim st.newMessage])

/-- Polling interval of the ConversationPage setInterval call, in
milliseconds. -/
def pollIntervalMs : Nat := 3000

/-- One iteration of the ConversationPage polling effect: a failed fetch is
caught and only logged to the console, leaving the state untouched; a
successful fetch replaces the message list, and re-invokes markAsRead, only
when the fetched list is strictly longer than the current one. Returns the
new state and whether markAsRead was invoked. -/
def pollTick (st : ConversationState) (fetched : Except String (List Message)) :
    ConversationState × Bool :=
  match fetched with
  | Except.error _ => (st, false)
  | Except.ok newMessages =>
    if newMessages.length > st.messages.length then
      ({ st with messages := newMessages }, true)
    else (st, false)

/-- Domain events of specification sections 4.1 and 4.4 relevant to the
accept transition. -/
inductive DomainEvent
  | application_accepted
  | application_rejected
  | collaborator_joined
deriving DecidableEq, Repr

/-- State of one application as seen by the modelled ApplicationLedger:
its status, whether an active collaboration exists for its
(project, applicant) pair, whether the project_team conversation exists, and
the list of events emitted so far. -/
structure LedgerState where
  appStatus : AppStatus
  collabActive : Bool
  conversationExists : Bool
  events : List DomainEvent
deriving DecidableEq, Repr

/-- Modelled from the spec: ApplicationLedger.transition of section 4.1
together with the compound accept bundle (CollaborationRegistry.join and
ConversationGate.ensure, sections 4.2 and 4.3); the backend service is not in
the repository snapshot, only its UI callers are. Per the spec text: a pair in
the table attempted by the wrong actor fails with AuthorizationError; a pair
not in the table fails with StateConflict, except re-accepting an already
accepted application, which must be a no-op-returning idempotent success; the
accept transition joins the collaboration (StateConflict when one is already
active), ensures the conversation and emits the accept and join events; the
reject transition emits the reject event. -/
def ledgerTransition (st : LedgerState) (actor : Actor) (target : AppStatus) :
    Except ErrKind LedgerState :=
  if st.appStatus = AppStatus.accepted ∧ target = AppStatus.accepted ∧
      actor = Actor.creator then
    Except.ok st
  else
    match tableActor st.appStatus target with
    | none => Except.error ErrKind.StateConflict
    | some a =>
      if actor ≠ a then Except.error ErrKind.AuthorizationError
      else if target = AppStatus.accepted then
        if st.collabActive then Except.error ErrKind.StateConflict
        else
          Except.ok { appStatus := AppStatus.accepted, collabActive := true,
                      conversationExists := true,
                      events := st.events ++
                        [DomainEvent.application_accepted,
                         DomainEvent.collaborator_joined] }
      else if target = AppStatus.rejected then
        Except.ok { st with appStatus := target,
                            events := st.events ++
                              [DomainEvent.application_rejected] }
      else
        Except.ok { st with appStatus := target }

/-- Modelled from the spec: ApplicationLedger.submit of section 4.1; the
backend service is not in the repository snapshot, only its UI callers are.
It fails with ValidationError when the cover letter is shorter than 50
characters or the role is not among the declared roles of the project, and
with StateConflict when the project is not open, the applicant is the project
creator, or a non-terminal application already exists for the pair; on
success the application is created in pending status. -/
def submit (p : Project) (applicant_id : Nat) (role : String)
    (cover_letter : String) (existingNonTerminal : Bool) :
    Except ErrKind AppStatus :=
  if cover_letter.length < 50 then Except.error ErrKind.ValidationError
  else if !(p.roles_needed.contains role) then Except.error ErrKind.ValidationError
  else if p.status ≠ ProjStatus.open_ then Except.error ErrKind.StateConflict
  else if applicant_id = p.creator_id then Except.error ErrKind.StateConflict
  else if existingNonTerminal then Except.error ErrKind.StateConflict
  else Except.ok AppStatus.pending

/-! Helper lemmas. -/

/-- Dropping a prefix satisfying p yields the empty list exactly when every
element satisfies p. -/
theorem dropWhile_eq_nil_iff_all (p : Char → Bool) (l : List Char) :
    l.dropWhile p = [] ↔ ∀ c ∈ l, p c = true := by
  induction l with
  | nil => simp
  | cons a as ih =>
    by_cases ha : p a
    · simp [List.dropWhile_cons, ha, ih]
    · simp [List.dropWhile_cons, ha]

/-- When every element surviving dropWhile isWs is whitespace, every element
of the list is whitespace. -/
theorem all_of_dropWhile_all (l : List Char)
    (h : ∀ c ∈ l.dropWhile isWs, isWs c = true) : ∀ c ∈ l, isWs c = true := by
  induction l with
  | nil => simp
  | cons a as ih =>
    by_cases ha : isWs a
    · intro c hc
      rcases List.mem_cons.mp hc with hc | hc
      · subst hc; exact ha
      · exact ih (by simpa [List.dropWhile_cons, ha] using h) c hc
    · intro c hc
      exact h c (by simpa [List.dropWhile_cons, ha] using hc)

/-- The embedded trim yields the empty string exactly on blank input. -/
theorem jsTrim_eq_empty_iff (s : String) : jsTrim s = "" ↔ isBlank s = true := by
  have hmk : ∀ l : List Char, String.mk l = "" ↔ l = [] := by
    intro l
    constructor
    · intro h
      have := congrArg String.data h
      simpa using this
    · intro h; subst h; rfl
  rw [jsTrim, hmk, trimChars, List.reverse_eq_nil_iff, dropWhile_eq_nil_iff_all]
  constructor
  · intro h
    have h2 : ∀ c ∈ s.data.dropWhile isWs, isWs c = true := by
      intro c hc
      exact h c (List.mem_reverse.mpr hc)
    exact List.all_eq_true.mpr (all_of_dropWhile_all s.data h2)
  · intro h c hc
    have hall := List.all_eq_true.mp h
    exact hall c ((List.dropWhile_sublist isWs).mem (List.mem_reverse.mp hc))

/-- Folding selectRole preserves membership of the selection in the declared
roles. -/
theorem foldl_selectRole_mem (roles : List String) (choices : List String) :
    ∀ s : String, s ∈ roles → choices.foldl (selectRole roles) s ∈ roles := by
  induction choices with
  | nil => intro s hs; simpa using hs
  | cons c cs ih =>
    intro s hs
    simp only [List.foldl_cons]
    apply ih
    unfold selectRole
    split
    · assumption
    · exact hs

/-- With no declared roles, selection changes are all ignored. -/
theorem foldl_selectRole_nil (choices : List String) (s : String) :
    choices.foldl (selectRole []) s = s := by
  induction choices generalizing s with
  | nil => rfl
  | cons c cs ih =>
    simp only [List.foldl_cons]
    rw [show selectRole [] s c = s from by simp [selectRole]]
    exact ih s

/-! Claim theorems. -/

/-- C1: every status-changing action the handlers offer is an edge of the
section 4.1 transition table with the right actor: a review button of
ProjectApplicationsPage on status s targets t only when the table maps s to t
with actor creator; the Withdraw button of MyApplicationsPage appears on s
only when the table maps s to withdrawn with actor applicant; and a terminal
status (accepted, rejected, withdrawn) is offered no status-changing action by
either handler, so every observed status sequence follows the table. -/
theorem C1_offered_actions_follow_table :
    (∀ s t : AppStatus, t ∈ statusButtons s → tableActor s t = some Actor.creator) ∧
    (∀ s : AppStatus, withdrawOffered s = true →
      tableActor s AppStatus.withdrawn = some Actor.applicant) ∧
    (∀ s : AppStatus, isTerminal s = true →
      statusButtons s = [] ∧ withdrawOffered s = false) := by
  refine ⟨?_, ?_, ?_⟩
  · intro s t
    cases s <;> cases t <;> decide
  · intro s
    cases s <;> decide
  · intro s
    cases s <;> decide

/-- C1 witness: the Accept button on a pending application follows the
pending-to-accepted creator edge of the table. -/
theorem C1_offered_actions_follow_table_w :
    tableActor AppStatus.pending AppStatus.accepted = some Actor.creator :=
  C1_offered_actions_follow_table.1 AppStatus.pending AppStatus.accepted (by decide)

/-- C2: re-accepting an already accepted application is an idempotent no-op
success in the modelled ApplicationLedger: the call returns ok with the state
returned unchanged, so no new collaboration is created and no duplicate event
is emitted, rather than failing with an error. -/
theorem C2_reaccept_idempotent (st : LedgerState)
    (h : st.appStatus = AppStatus.accepted) :
    ledgerTransition st Actor.creator AppStatus.accepted = Except.ok st := by
  simp [ledgerTransition, h]

/-- C2 witness: a concrete accepted state with its collaboration and events is
returned unchanged by a second accept. -/
theorem C2_reaccept_idempotent_w :
    ledgerTransition
      { appStatus := AppStatus.accepted, collabActive := true,
        conversationExists := true,
        events := [DomainEvent.application_accepted,
                   DomainEvent.collaborator_joined] }
      Actor.creator AppStatus.accepted =
    Except.ok
      { appStatus := AppStatus.accepted, collabActive := true,
        conversationExists := true,
        events := [DomainEvent.application_accepted,
                   DomainEvent.collaborator_joined] } :=
  C2_reaccept_idempotent _ rfl

/-- C3: with a project loaded, handleApply with a cover message shorter than
50 characters issues no createApplication request and reports the validation
error, leaving the application set unchanged; with a cover message of length
at least 50 it issues exactly the one createApplication request carrying that
cover message. -/
theorem C3_cover_letter_minimum (st : ApplyFormState) (p : Project)
    (hp : st.project = some p) :
    (st.coverMessage.length < 50 →
      (handleApply st).2 = [] ∧
      (handleApply st).1.applyError =
        "Cover message must be at least 50 characters") ∧
    (50 ≤ st.coverMessage.length →
      (handleApply st).2 =
        [{ project_id := p.id, proposed_role := st.selectedRole,
           cover_letter := st.coverMessage }]) := by
  constructor
  · intro hlt
    simp [handleApply, hp, hlt]
  · intro hge
    simp [handleApply, hp, Nat.not_lt.mpr hge]

/-- C3 witness: a concrete 5-character cover message yields no request and the
validation error. -/
theorem C3_cover_letter_minimum_w :
    (handleApply
      { project := some { id := 1, creator_id := 2, roles_needed := ["Backend"],
                          status := ProjStatus.open_ },
        selectedRole := "Backend", coverMessage := "short",
        applyError := "" }).2 = [] ∧
    (handleApply
      { project := some { id := 1, creator_id := 2, roles_needed := ["Backend"],
                          status := ProjStatus.open_ },
        selectedRole := "Backend", coverMessage := "short",
        applyError := "" }).1.applyError =
      "Cover message must be at least 50 characters" :=
  (C3_cover_letter_minimum _ _ rfl).1 (by decide)

/-- C4: the apply operation is offered exactly when the project is open and
the authenticated user is not the creator (canApply), and in the modelled
ApplicationLedger a submission violating either condition fails with
StateConflict (for well-formed input, since the cover letter and role
validations precede the state checks). -/
theorem C4_apply_only_open_non_creator (u : User) (p : Project) :
    (canApply (some u) p = true ↔
      (p.status = ProjStatus.open_ ∧ u.id ≠ p.creator_id)) ∧
    (∀ (role cover : String) (existing : Bool),
      50 ≤ cover.length → p.roles_needed.contains role = true →
      (p.status ≠ ProjStatus.open_ ∨ u.id = p.creator_id) →
      submit p u.id role cover existing = Except.error ErrKind.StateConflict) := by
  constructor
  · simp only [canApply, isCreator, Option.isSome_some, Bool.true_and,
      Bool.and_eq_true, Bool.not_eq_true', beq_eq_false_iff_ne, beq_iff_eq]
    exact and_comm
  · intro role cover existing hcov hrole hviol
    have hmem : role ∈ p.roles_needed := by simpa using hrole
    rcases hviol with h | h
    · simp [submit, Nat.not_lt.mpr hcov, hmem, h]
    · by_cases hst : p.status = ProjStatus.open_
      · simp [submit, Nat.not_lt.mpr hcov, hmem, hst, h]
      · simp [submit, Nat.not_lt.mpr hcov, hmem, hst]

/-- C4 witness: a creator submitting to the own project with a valid role and
a 50-character cover letter fails with StateConflict. -/
theorem C4_apply_only_open_non_creator_w :
    submit { id := 1, creator_id := 1, roles_needed := ["Backend"],
             status := ProjStatus.open_ } 1 "Backend"
      "xxxxxxxxxxxxxxxxxxxxxxxxxxxxxxxxxxxxxxxxxxxxxxxxxx" false =
    Except.error ErrKind.StateConflict :=
  (C4_apply_only_open_non_creator { id := 1 } _).2 _ _ false (by decide)
    (by decide) (Or.inr rfl)

/-- C5 counterexample: the Withdraw action is not offered from under_review
although it is offered from pending, refuting the claim that withdrawal is
available from under_review exactly as it is from pending. -/
theorem C5_withdraw_under_review_cex :
    withdrawOffered AppStatus.under_review ≠ withdrawOffered AppStatus.pending ∧
    withdrawOffered AppStatus.under_review = false := by
  decide

/-- C5 amended: MyApplicationsPage offers the Withdraw action exactly for
applications in pending status, and an invoked, confirmed withdrawal issues
the update request setting the application to withdrawn. -/
theorem C5_withdraw_only_from_pending :
    (∀ s : AppStatus, withdrawOffered s = true ↔ s = AppStatus.pending) ∧
    (∀ (apps : List Application) (appId : Nat),
      (handleWithdraw true apps appId).2 = [(appId, AppStatus.withdrawn)]) := by
  constructor
  · intro s; cases s <;> decide
  · intro apps appId; rfl

/-- C5 witness: the Withdraw update request for application 3. -/
theorem C5_withdraw_only_from_pending_w :
    (handleWithdraw true [] 3).2 = [(3, AppStatus.withdrawn)] :=
  C5_withdraw_only_from_pending.2 [] 3

/-- C6: handleSend on an empty or whitespace-only input issues no sendMessage
request and appends nothing to the message list; on a non-blank input, with
no send in flight, it sends exactly the trimmed content and appends the reply
message. -/
theorem C6_blank_send_blocked (st : ConversationState) (reply : Message) :
    (isBlank st.newMessage = true → handleSend st reply = (st, [])) ∧
    (isBlank st.newMessage = false → st.sending = false →
      handleSend st reply =
        ({ st with messages := st.messages ++ [reply], newMessage := "" },
         [jsTrim st.newMessage])) := by
  constructor
  · intro hb
    have ht : jsTrim st.newMessage = "" := (jsTrim_eq_empty_iff _).mpr hb
    simp [handleSend, ht]
  · intro hb hs
    have ht : ¬ jsTrim st.newMessage = "" := by
      intro h
      rw [(jsTrim_eq_empty_iff _).mp h] at hb
      cases hb
    simp [handleSend, ht, hs]

/-- C6 witness: a whitespace-only input produces no request and leaves the
state unchanged. -/
theorem C6_blank_send_blocked_w :
    handleSend { messages := [], errorMsg := "", newMessage := "   ",
                 sending := false }
      { id := 1, conversation_id := 1, sender_id := 1, content := "hi" } =
    ({ messages := [], errorMsg := "", newMessage := "   ", sending := false },
     []) :=
  (C6_blank_send_blocked _ _).1 (by decide)

/-- C7: a creator collaboration is never offered the leave action: its Leave
button is not rendered and it is never among the collaborations with a
rendered Leave button, through which alone handleLeave and leaveCollaboration
are invoked, so the StateConflict branch for a creator leaving is unreachable
from the interface. -/
theorem C7_creator_cannot_leave (c : Collaboration) (h : c.role = "creator") :
    leaveOffered c = false ∧
    ∀ collabs : List Collaboration, c ∉ leaveButtons collabs := by
  have hoff : leaveOffered c = false := by
    simp [leaveOffered, h]
  refine ⟨hoff, ?_⟩
  intro collabs hmem
  simp only [leaveButtons, List.mem_filter] at hmem
  simp [hoff] at hmem

/-- C7 witness: a concrete active creator collaboration has no Leave button
and is absent from every rendered Leave button list. -/
theorem C7_creator_cannot_leave_w :
    leaveOffered { id := 1, project_id := 1, user_id := 1, role := "creator",
                   status := CollabStatus.active } = false ∧
    ∀ collabs : List Collaboration,
      { id := 1, project_id := 1, user_id := 1, role := "creator",
        status := CollabStatus.active : Collaboration } ∉ leaveButtons collabs :=
  C7_creator_cannot_leave _ rfl

/-- C8: a failed poll fetch leaves the component state untouched — the error
state and the message list are unchanged and markAsRead is not invoked — and
polling runs at the fixed bounded interval of 3000 milliseconds. -/
theorem C8_poll_failures_silent (st : ConversationState) (e : String) :
    pollTick st (Except.error e) = (st, false) ∧
    (pollTick st (Except.error e)).1.errorMsg = st.errorMsg ∧
    (pollTick st (Except.error e)).1.messages = st.messages ∧
    pollIntervalMs = 3000 :=
  ⟨rfl, rfl, rfl, rfl⟩

/-- C9: after the project loads, the selected role of the apply modal is one
of the declared roles whenever roles_needed is non-empty (the selector offers
only declared roles, so the proposed_role sent is always declared), it is the
empty string when roles_needed is empty, and handleApply applies no role
validation of its own: the request, carrying exactly the selected role, is
issued whenever the cover message is long enough. -/
theorem C9_role_always_declared (roles choices : List String) :
    (roles ≠ [] → roleAfter roles choices ∈ roles) ∧
    (roles = [] → roleAfter roles choices = "") ∧
    (∀ (p : Project) (cover err : String), 50 ≤ cover.length →
      (handleApply { project := some p, selectedRole := roleAfter roles choices,
                     coverMessage := cover, applyError := err }).2 =
        [{ project_id := p.id, proposed_role := roleAfter roles choices,
           cover_letter := cover }]) := by
  refine ⟨?_, ?_, ?_⟩
  · intro hne
    cases roles with
    | nil => exact absurd rfl hne
    | cons r rs =>
      exact foldl_selectRole_mem _ choices _ (by simp [fetchRoleInit])
  · intro hnil
    subst hnil
    simpa [roleAfter, fetchRoleInit] using foldl_selectRole_nil choices ""
  · intro p cover err hcov
    simp [handleApply, Nat.not_lt.mpr hcov]

/-- C9 witness: with one declared role the reachable selection after a change
event is still a declared role. -/
theorem C9_role_always_declared_w :
    roleAfter ["Backend", "Design"] ["Design"] ∈
      (["Backend", "Design"] : List String) :=
  (C9_role_always_declared ["Backend", "Design"] ["Design"]).1 (by decide)

/-- C10: the polling handler replaces the displayed message list exactly when
the fetched list is strictly longer: a fetch of at most the current count
leaves the state unchanged, even if individual message contents differ, and
markAsRead is not invoked; a strictly longer fetch replaces the list and
re-invokes markAsRead. -/
theorem C10_poll_replaces_iff_longer (st : ConversationState)
    (ms : List Message) :
    (ms.length ≤ st.messages.length → pollTick st (Except.ok ms) = (st, false)) ∧
    (st.messages.length < ms.length →
      pollTick st (Except.ok ms) = ({ st with messages := ms }, true)) := by
  constructor
  · intro hle
    simp [pollTick, Nat.not_lt.mpr hle]
  · intro hlt
    simp [pollTick, hlt]

/-- C10 witness: a fetch with equal length but different content leaves the
state unchanged and does not invoke markAsRead. -/
theorem C10_poll_replaces_iff_longer_w :
    pollTick
      { messages := [{ id := 1, conversation_id := 1, sender_id := 1,
                       content := "old" }],
        errorMsg := "", newMessage := "", sending := false }
      (Except.ok [{ id := 2, conversation_id := 1, sender_id := 2,
                    content := "new" }]) =
    ({ messages := [{ id := 1, conversation_id := 1, sender_id := 1,
                      content := "old" }],
       errorMsg := "", newMessage := "", sending := false }, false) :=
  (C10_poll_replaces_iff_longer _ _).1 (by decide)

end Collabers
